import Mathlib

/-!
Verification development for the sahayak backend (src/Backend/main.py).

The numeric code is embedded over ℚ; Python's `round(x, 1)` (round half to
even at one decimal place) is modelled by `round1`.  JSON values produced by
`json.loads` are modelled by the inductive `JsonV`; a fallible decode is an
`Option JsonV`.  HTTP error propagation is modelled with `Except Nat`, the
`Nat` being the HTTP status code an endpoint raises.
-/

namespace Sahayak

/-- Round half to even on ℚ, the semantics of Python `round(q)`. -/
def rhe (q : ℚ) : ℤ :=
  if q - ⌊q⌋ < 1/2 then ⌊q⌋
  else if 1/2 < q - ⌊q⌋ then ⌊q⌋ + 1
  else if ⌊q⌋ % 2 = 0 then ⌊q⌋ else ⌊q⌋ + 1

/-- Python `round(q, 1)`: round half to even at one decimal place. -/
def round1 (q : ℚ) : ℚ := (rhe (10 * q) : ℚ) / 10

/-- Embedding of `calculate_reading_metrics` (main.py lines 252-257):
`words_per_minute = (word_count / duration) * 60`,
`accuracy = min(100, max(70, 90 - (0.5 * max(0, words_per_minute - 45))))`,
`fluency = min(100, max(65, 85 - (0.3 * max(0, words_per_minute - 50))))`,
each returned rounded to 1 decimal place. -/
def calculate_reading_metrics (duration word_count : ℤ) : ℚ × ℚ × ℚ :=
  let words_per_minute : ℚ := ((word_count : ℚ) / (duration : ℚ)) * 60
  let accuracy : ℚ := min 100 (max 70 (90 - (1/2 * max 0 (words_per_minute - 45))))
  let fluency : ℚ := min 100 (max 65 (85 - (3/10 * max 0 (words_per_minute - 50))))
  (round1 words_per_minute, round1 accuracy, round1 fluency)

/-- The spec's clamp: `clamp(x, lower, upper) = min upper (max lower x)`. -/
def specClamp (lo hi x : ℚ) : ℚ := min hi (max lo x)

/-- Written from the spec's words (section 4.1), for comparison with the
source embedding: wpm unclamped and rounded; accuracy and fluency each a
penalty formula on wpm, clamped to their range, then rounded to 1 decimal. -/
def spec_compute_metrics (duration word_count : ℤ) : ℚ × ℚ × ℚ :=
  let wpm : ℚ := ((word_count : ℚ) / (duration : ℚ)) * 60
  (round1 wpm,
   round1 (specClamp 70 100 (90 - 1/2 * max 0 (wpm - 45))),
   round1 (specClamp 65 100 (85 - 3/10 * max 0 (wpm - 50))))

/-- JSON values, the possible results of Python `json.loads`. -/
inductive JsonV where
  | null
  | bool (b : Bool)
  | num (q : ℚ)
  | str (s : String)
  | arr (xs : List JsonV)
  | obj (kvs : List (String × JsonV))

/-- Embedding of `safe_json_parse` (main.py lines 230-235): the first
argument is the outcome of `json.loads(json_str)` (`none` = decode error);
on failure the `default` is returned. -/
def safe_json_parse (decoded : Option JsonV) (default : Option JsonV) : Option JsonV :=
  match decoded with
  | some v => some v
  | none => default

/-- Python `dict.get(key, default)` on a JSON object's key-value list. -/
def dictGet (kvs : List (String × JsonV)) (key : String) (default : JsonV) : JsonV :=
  match kvs.lookup key with
  | some v => v
  | none => default

/-- Python truthiness of a JSON value (`if not worksheet_data`). -/
def pyTruthy : JsonV → Bool
  | .null => false
  | .bool b => b
  | .num q => q != 0
  | .str s => s != ""
  | .arr xs => !xs.isEmpty
  | .obj kvs => !kvs.isEmpty

/-- Substring test on character lists, for Python `needle in string`. -/
def hasSubstring (needle : List Char) (hay : List Char) : Bool :=
  match hay with
  | [] => needle.isEmpty
  | c :: t => needle.isPrefixOf (c :: t) || hasSubstring needle t

/-- Python `needle in v` for a string needle: key membership on a dict,
element equality on a list, substring on a string; `TypeError` (modelled as
`.error ()`) on null, bool and number. -/
def pyContains (needle : String) : JsonV → Except Unit Bool
  | .obj kvs => .ok (kvs.any (fun kv => kv.1 == needle))
  | .arr xs => .ok (xs.any (fun x => match x with | .str s => s == needle | _ => false))
  | .str s => .ok (hasSubstring needle.toList s.toList)
  | _ => .error ()

/-- Embedding of `generate_gemini_response` (main.py lines 237-250): a
successful upstream call passes its payload through; any upstream failure is
raised as an HTTP 503 service-unavailable error. -/
def generate_gemini_response {α : Type} (upstream : Except Unit α) : Except Nat α :=
  match upstream with
  | .ok t => .ok t
  | .error _ => .error 503

/-- The fallback dict passed as `default` to `safe_json_parse` in
`generate_lesson_plan` (main.py lines 464-470). -/
def fallbackLessonJson : JsonV :=
  .obj [("objectives", .arr [.str "Objective 1", .str "Objective 2"]),
        ("activities", .arr [.str "Activity 1", .str "Activity 2"]),
        ("materials", .arr [.str "Material 1", .str "Material 2"]),
        ("assessment", .str "Oral questions and observation"),
        ("homework", .str "Worksheet or reflection")]

/-- The generated fields of a lesson plan (the parts of the `lesson_plan`
dict built from `plan_data`, main.py lines 478-482). -/
structure LessonFields where
  objectives : JsonV
  activities : JsonV
  materials : JsonV
  assessment : JsonV
  homework : JsonV

/-- The lesson fields obtained when `plan_data` is exactly the fallback dict. -/
def fallbackLessonFields : LessonFields :=
  ⟨.arr [.str "Objective 1", .str "Objective 2"],
   .arr [.str "Activity 1", .str "Activity 2"],
   .arr [.str "Material 1", .str "Material 2"],
   .str "Oral questions and observation",
   .str "Worksheet or reflection"⟩

/-- Embedding of the `generate_lesson_plan` endpoint body (main.py lines
463-496): upstream failure re-raises the 503 (`except HTTPException: raise`);
otherwise `plan_data = safe_json_parse(response.text, fallback)` and the
generated fields are read with `plan_data.get(key, default)`; if `plan_data`
is not a dict the resulting `AttributeError` is caught by the generic handler
and re-raised as HTTP 500. -/
def generate_lesson_plan_result (upstream : Except Unit (Option JsonV)) :
    Except Nat LessonFields :=
  match generate_gemini_response upstream with
  | .error n => .error n
  | .ok decoded =>
    match safe_json_parse decoded (some fallbackLessonJson) with
    | some (.obj kvs) =>
        .ok ⟨dictGet kvs "objectives" (.arr []),
             dictGet kvs "activities" (.arr []),
             dictGet kvs "materials" (.arr []),
             dictGet kvs "assessment" (.str ""),
             dictGet kvs "homework" (.str "")⟩
    | _ => .error 500

/-- Embedding of `create_fallback_worksheet` (main.py lines 287-335); the
`content` argument is unused in the source as well. -/
def create_fallback_worksheet (content : String) : JsonV :=
  .obj [("variants", .arr [
          .obj [("grade", .str "Grade 3"),
                ("difficulty", .str "Easy"),
                ("instructions", .str "Answer the following questions"),
                ("questions", .arr [
                  .obj [("text", .str "What is the main idea of this content?"),
                        ("type", .str "short_answer"),
                        ("answer", .str "Various answers acceptable")],
                  .obj [("text", .str "Explain one key concept from this material"),
                        ("type", .str "short_answer"),
                        ("answer", .str "Various answers acceptable")]])],
          .obj [("grade", .str "Grade 4"),
                ("difficulty", .str "Medium"),
                ("instructions", .str "Complete the following exercises"),
                ("questions", .arr [
                  .obj [("text", .str "Summarize the key points in your own words"),
                        ("type", .str "short_answer"),
                        ("answer", .str "Various answers acceptable")]])],
          .obj [("grade", .str "Grade 5"),
                ("difficulty", .str "Hard"),
                ("instructions", .str "Analyze and respond to the following"),
                ("questions", .arr [
                  .obj [("text", .str "What are the implications of this content?"),
                        ("type", .str "short_answer"),
                        ("answer", .str "Various answers acceptable")]])]]),
        ("subject", .str "General"),
        ("topic", .str "Fallback Worksheet")]

/-- The normalization step of `generate_enhanced_worksheets` (main.py lines
645-650): `worksheet_data = safe_json_parse(response.text)` followed by
`if not worksheet_data or 'variants' not in worksheet_data:` substituting
`create_fallback_worksheet`.  Python evaluates the truthiness test first; the
`in` test can raise `TypeError` (propagated as `.error`). -/
def worksheetDataOf (decoded : Option JsonV) (text_content : String) :
    Except Unit JsonV :=
  match safe_json_parse decoded none with
  | none => .ok (create_fallback_worksheet text_content)
  | some v =>
    if pyTruthy v = false then .ok (create_fallback_worksheet text_content)
    else
      match pyContains "variants" v with
      | .error e => .error e
      | .ok true => .ok v
      | .ok false => .ok (create_fallback_worksheet text_content)

/-- Embedding of `generate_enhanced_worksheets` (main.py lines 592-668).  The
whole generation body sits in a `try` whose `except Exception` returns
`create_fallback_worksheet(request.text_content)` — so an upstream 503, a
`TypeError` from the `in` test, and an `AttributeError` from `.get` on a
non-dict all end as the fallback dict, and the function never raises.  On the
normal path the `worksheet_set` dict is built with the `variants` and `topic`
read from `worksheet_data.get`. -/
def generate_enhanced_worksheets (upstream : Except Unit (Option JsonV))
    (text_content subject : String) (base64_image : Option String)
    (uid ts : String) : Except Nat JsonV :=
  match generate_gemini_response upstream with
  | .error _ => .ok (create_fallback_worksheet text_content)
  | .ok decoded =>
    match worksheetDataOf decoded text_content with
    | .error _ => .ok (create_fallback_worksheet text_content)
    | .ok (.obj kvs) =>
        .ok (.obj [("id", .str uid),
                   ("original_image",
                     match base64_image with | some s => .str s | none => .null),
                   ("extracted_text", .str text_content),
                   ("variants", dictGet kvs "variants" (.arr [])),
                   ("subject", .str subject),
                   ("topic", dictGet kvs "topic" (.str "General")),
                   ("timestamp", .str ts)])
    | .ok _ => .ok (create_fallback_worksheet text_content)

/-- The `variants` entry of a returned worksheet dict. -/
def responseVariants (r : Except Nat JsonV) : Option JsonV :=
  match r with
  | .ok (.obj kvs) => kvs.lookup "variants"
  | _ => none

/-- The fixed `variants` array of the fallback worksheet. -/
def fallbackVariants : JsonV :=
  .arr [.obj [("grade", .str "Grade 3"),
              ("difficulty", .str "Easy"),
              ("instructions", .str "Answer the following questions"),
              ("questions", .arr [
                .obj [("text", .str "What is the main idea of this content?"),
                      ("type", .str "short_answer"),
                      ("answer", .str "Various answers acceptable")],
                .obj [("text", .str "Explain one key concept from this material"),
                      ("type", .str "short_answer"),
                      ("answer", .str "Various answers acceptable")]])],
        .obj [("grade", .str "Grade 4"),
              ("difficulty", .str "Medium"),
              ("instructions", .str "Complete the following exercises"),
              ("questions", .arr [
                .obj [("text", .str "Summarize the key points in your own words"),
                      ("type", .str "short_answer"),
                      ("answer", .str "Various answers acceptable")]])],
        .obj [("grade", .str "Grade 5"),
              ("difficulty", .str "Hard"),
              ("instructions", .str "Analyze and respond to the following"),
              ("questions", .arr [
                .obj [("text", .str "What are the implications of this content?"),
                      ("type", .str "short_answer"),
                      ("answer", .str "Various answers acceptable")]])]]

/-- The variants list held by a worksheet dict. -/
def wsVariants (v : JsonV) : List JsonV :=
  match v with
  | .obj kvs =>
    match kvs.lookup "variants" with
    | some (.arr xs) => xs
    | _ => []
  | _ => []

/-- The questions list of one worksheet variant. -/
def variantQuestions (v : JsonV) : List JsonV :=
  match v with
  | .obj kvs =>
    match kvs.lookup "questions" with
    | some (.arr qs) => qs
    | _ => []
  | _ => []

/-- Number of questions in one worksheet variant. -/
def questionCount (v : JsonV) : ℕ := (variantQuestions v).length

/-- The `grade` field of a variant. -/
def variantGrade (v : JsonV) : Option JsonV :=
  match v with
  | .obj kvs => kvs.lookup "grade"
  | _ => none

/-- The `difficulty` field of a variant. -/
def variantDifficulty (v : JsonV) : Option JsonV :=
  match v with
  | .obj kvs => kvs.lookup "difficulty"
  | _ => none

/-- The `instructions` field of a variant. -/
def variantInstructions (v : JsonV) : Option JsonV :=
  match v with
  | .obj kvs => kvs.lookup "instructions"
  | _ => none

/-- The `type` field of a question. -/
def questionType (q : JsonV) : Option JsonV :=
  match q with
  | .obj kvs => kvs.lookup "type"
  | _ => none

/-- The whitespace characters stripped by Python `str.strip()` (ASCII). -/
def isPySpace (c : Char) : Bool :=
  c == ' ' || c == '\t' || c == '\n' || c == '\x0d' ||
    c == '\x0b' || c == '\x0c'

/-- Python `item.strip()` on a string given as a character list. -/
def pyStrip (l : List Char) : List Char :=
  ((l.dropWhile isPySpace).reverse.dropWhile isPySpace).reverse

/-- Python `list_str.split('\n')` on a character list: the pieces between
newline characters, in order; the empty string yields one empty piece. -/
def splitNewline : List Char → List (List Char)
  | [] => [[]]
  | c :: t =>
    if c == '\n' then [] :: splitNewline t
    else
      match splitNewline t with
      | [] => [[c]]
      | p :: ps => (c :: p) :: ps

/-- Embedding of `parse_string_list` (main.py lines 224-228) for string
inputs: `[item.strip() for item in list_str.split('\n') if item.strip()]`. -/
def parse_string_list (list_str : List Char) : List (List Char) :=
  ((splitNewline list_str).map pyStrip).filter (fun item => !item.isEmpty)

/-- The `ChatMessage` record (main.py lines 177-182). -/
structure ChatMessage where
  id : String
  type : String
  content : String
  language : String
  timestamp : String
deriving DecidableEq

/-- Embedding of the `send_chat_message` endpoint body (main.py lines
678-734).  The user message is appended to the store before the upstream
call; `upstream` is the outcome of that call (its reply text on success).
On any exception — in particular the 503 raised by
`generate_gemini_response` — the `except Exception` handler raises HTTP 500,
with the user message already appended.  On success the bot message is
appended and returned.  `uid1`, `uid2`, `ts1`, `ts2` stand for the generated
uuids and timestamps. -/
def send_chat_message (store : List ChatMessage) (message language : String)
    (upstream : Except Unit String) (uid1 uid2 ts1 ts2 : String) :
    List ChatMessage × Except Nat ChatMessage :=
  let user_message : ChatMessage :=
    { id := uid1, type := "user", content := message,
      language := language, timestamp := ts1 }
  let store1 := store ++ [user_message]
  match generate_gemini_response upstream with
  | .error _ => (store1, .error 500)
  | .ok replyText =>
    let bot_message : ChatMessage :=
      { id := uid2, type := "bot", content := replyText,
        language := language, timestamp := ts2 }
    (store1 ++ [bot_message], .ok bot_message)

lemma rhe_ge_floor (q : ℚ) : ⌊q⌋ ≤ rhe q := by
  unfold rhe; split_ifs <;> omega

lemma rhe_le_floor_add_one (q : ℚ) : rhe q ≤ ⌊q⌋ + 1 := by
  unfold rhe; split_ifs <;> omega

lemma rhe_mono {a b : ℚ} (h : a ≤ b) : rhe a ≤ rhe b := by
  rcases lt_or_eq_of_le (Int.floor_le_floor h) with hlt | heq
  · calc rhe a ≤ ⌊a⌋ + 1 := rhe_le_floor_add_one a
    _ ≤ ⌊b⌋ := by omega
    _ ≤ rhe b := rhe_ge_floor b
  · have hab : a - (⌊b⌋ : ℚ) ≤ b - (⌊b⌋ : ℚ) := by linarith
    unfold rhe
    rw [heq]
    split_ifs <;> first | omega | linarith

lemma rhe_intCast (n : ℤ) : rhe (n : ℚ) = n := by
  unfold rhe
  rw [Int.floor_intCast, sub_self]
  norm_num

lemma round1_intCast (n : ℤ) : round1 (n : ℚ) = n := by
  unfold round1
  have h : (10 : ℚ) * (n : ℚ) = ((10 * n : ℤ) : ℚ) := by push_cast; ring
  rw [h, rhe_intCast]
  push_cast
  ring

lemma round1_mono {a b : ℚ} (h : a ≤ b) : round1 a ≤ round1 b := by
  unfold round1
  have h2 : rhe (10 * a) ≤ rhe (10 * b) := rhe_mono (by linarith)
  have h3 : ((rhe (10 * a) : ℤ) : ℚ) ≤ ((rhe (10 * b) : ℤ) : ℚ) := Int.cast_le.mpr h2
  have h10 : (0 : ℚ) < 10 := by norm_num
  exact (div_le_div_iff_of_pos_right h10).mpr h3

lemma round1_ge_int (n : ℤ) {q : ℚ} (h : (n : ℚ) ≤ q) : (n : ℚ) ≤ round1 q := by
  have h2 := round1_mono h
  rwa [round1_intCast] at h2

lemma round1_le_int (n : ℤ) {q : ℚ} (h : q ≤ (n : ℚ)) : round1 q ≤ (n : ℚ) := by
  have h2 := round1_mono h
  rwa [round1_intCast] at h2

lemma wpm_def (d w : ℤ) :
    (calculate_reading_metrics d w).1 = round1 (((w : ℚ) / (d : ℚ)) * 60) := rfl

lemma accuracy_def (d w : ℤ) :
    (calculate_reading_metrics d w).2.1 =
      round1 (min 100 (max 70 (90 - (1/2 * max 0 (((w : ℚ) / (d : ℚ)) * 60 - 45))))) := rfl

lemma fluency_def (d w : ℤ) :
    (calculate_reading_metrics d w).2.2 =
      round1 (min 100 (max 65 (85 - (3/10 * max 0 (((w : ℚ) / (d : ℚ)) * 60 - 50))))) := rfl

lemma accuracy_antitone {x y : ℚ} (h : x ≤ y) :
    round1 (min 100 (max 70 (90 - (1/2 * max 0 (y - 45))))) ≤
      round1 (min 100 (max 70 (90 - (1/2 * max 0 (x - 45))))) := by
  apply round1_mono
  apply min_le_min le_rfl
  apply max_le_max le_rfl
  have h2 : max 0 (x - 45) ≤ max 0 (y - 45) := max_le_max le_rfl (by linarith)
  linarith

lemma fluency_antitone {x y : ℚ} (h : x ≤ y) :
    round1 (min 100 (max 65 (85 - (3/10 * max 0 (y - 50))))) ≤
      round1 (min 100 (max 65 (85 - (3/10 * max 0 (x - 50))))) := by
  apply round1_mono
  apply min_le_min le_rfl
  apply max_le_max le_rfl
  have h2 : max 0 (x - 50) ≤ max 0 (y - 50) := max_le_max le_rfl (by linarith)
  linarith

/-- C1: for positive duration and word count, `calculate_reading_metrics`
returns exactly the triple the spec's formulas describe: wpm unclamped and
rounded to 1 decimal; accuracy `90 - 0.5*max(0, wpm-45)` clamped to `[70,100]`
then rounded; fluency `85 - 0.3*max(0, wpm-50)` clamped to `[65,100]` then
rounded (with the penalty formulas applied to the unrounded wpm, as in the
source). -/
theorem C1_metrics_match_spec_formula (duration word_count : ℤ)
    (hd : 0 < duration) (hw : 0 < word_count) :
    calculate_reading_metrics duration word_count =
      spec_compute_metrics duration word_count := rfl

theorem C1_metrics_match_spec_formula_witness :
    (0 : ℤ) < 60 ∧ (0 : ℤ) < 50 ∧
      calculate_reading_metrics 60 50 = spec_compute_metrics 60 50 :=
  ⟨by norm_num, by norm_num,
    C1_metrics_match_spec_formula 60 50 (by norm_num) (by norm_num)⟩

/-- C2: for every positive duration and word count the returned accuracy lies
in `[70, 100]` and the returned fluency in `[65, 100]`, while the returned
words-per-minute is unclamped: it exceeds any bound for suitable inputs. -/
theorem C2_clamp_invariant :
    (∀ d w : ℤ, 0 < d → 0 < w →
      70 ≤ (calculate_reading_metrics d w).2.1 ∧
        (calculate_reading_metrics d w).2.1 ≤ 100 ∧
        65 ≤ (calculate_reading_metrics d w).2.2 ∧
        (calculate_reading_metrics d w).2.2 ≤ 100) ∧
    (∀ B : ℚ, ∃ d w : ℤ, 0 < d ∧ 0 < w ∧ B ≤ (calculate_reading_metrics d w).1) := by
  constructor
  · intro d w _ _
    rw [accuracy_def, fluency_def]
    refine ⟨?_, ?_, ?_, ?_⟩
    · exact_mod_cast round1_ge_int 70 (le_min (by norm_num) (le_max_left _ _))
    · exact_mod_cast round1_le_int 100 (min_le_left _ _)
    · exact_mod_cast round1_ge_int 65 (le_min (by norm_num) (le_max_left _ _))
    · exact_mod_cast round1_le_int 100 (min_le_left _ _)
  · intro B
    refine ⟨1, max 1 ⌈B⌉, one_pos, lt_of_lt_of_le one_pos (le_max_left _ _), ?_⟩
    rw [wpm_def]
    have h1 : ((max 1 ⌈B⌉ : ℤ) : ℚ) / ((1 : ℤ) : ℚ) * 60 =
        (((max 1 ⌈B⌉) * 60 : ℤ) : ℚ) := by push_cast; ring
    rw [h1, round1_intCast]
    have h2 : B ≤ (⌈B⌉ : ℚ) := Int.le_ceil B
    have h3 : (⌈B⌉ : ℤ) ≤ max 1 ⌈B⌉ * 60 := by
      have h4 : (1 : ℤ) ≤ max 1 ⌈B⌉ := le_max_left _ _
      have h5 : (⌈B⌉ : ℤ) ≤ max 1 ⌈B⌉ := le_max_right _ _
      nlinarith
    calc B ≤ (⌈B⌉ : ℚ) := h2
    _ ≤ ((max 1 ⌈B⌉ * 60 : ℤ) : ℚ) := by exact_mod_cast h3
    _ = _ := by push_cast; ring

theorem C2_clamp_invariant_witness :
    70 ≤ (calculate_reading_metrics 1 1000000).2.1 ∧
      (calculate_reading_metrics 1 1000000).2.1 ≤ 100 ∧
      65 ≤ (calculate_reading_metrics 1 1000000).2.2 ∧
      (calculate_reading_metrics 1 1000000).2.2 ≤ 100 :=
  C2_clamp_invariant.1 1 1000000 (by norm_num) (by norm_num)

/-- C7 as stated is false: the spec's regression literal says
`compute_metrics(60, 50)` returns accuracy `90.0`, but the code (following
the stated formula, as the spec's own parenthetical recomputation notes)
returns `87.5`. -/
theorem C7_counterexample :
    calculate_reading_metrics 60 50 ≠ (50, 90, 85) := by
  norm_num [calculate_reading_metrics, round1, rhe]

/-- C7 amended: `calculate_reading_metrics 60 50 = (50.0, 87.5, 85.0)`
(accuracy `90 - 0.5*(50-45) = 87.5`, matching the spec's parenthetical
recomputation) and `calculate_reading_metrics 30 15 = (30.0, 90.0, 85.0)`. -/
theorem C7_amended_regression_values :
    calculate_reading_metrics 60 50 = (50, 87.5, 85) ∧
      calculate_reading_metrics 30 15 = (30, 90, 85) := by
  constructor
  · norm_num [calculate_reading_metrics, round1, rhe]
  · norm_num [calculate_reading_metrics, round1, rhe]

/-- C9: for a fixed positive word count and durations `d2 ≤ d1` (both
positive, so the wpm at `d2` is at least the wpm at `d1`), the accuracy and
fluency at `d2` are at most those at `d1`: both metrics are non-increasing as
duration decreases. -/
theorem C9_metrics_antitone_in_speed (w d1 d2 : ℤ)
    (hw : 0 < w) (hd2 : 0 < d2) (hle : d2 ≤ d1) :
    (calculate_reading_metrics d2 w).2.1 ≤ (calculate_reading_metrics d1 w).2.1 ∧
      (calculate_reading_metrics d2 w).2.2 ≤ (calculate_reading_metrics d1 w).2.2 := by
  have hd1 : (0 : ℚ) < (d1 : ℚ) := by exact_mod_cast lt_of_lt_of_le hd2 hle
  have hd2q : (0 : ℚ) < (d2 : ℚ) := by exact_mod_cast hd2
  have hwq : (0 : ℚ) ≤ (w : ℚ) := by exact_mod_cast le_of_lt hw
  have hleq : (d2 : ℚ) ≤ (d1 : ℚ) := by exact_mod_cast hle
  have key : (w : ℚ) / (d1 : ℚ) ≤ (w : ℚ) / (d2 : ℚ) :=
    div_le_div_of_nonneg_left hwq hd2q hleq
  have hwpm : (w : ℚ) / (d1 : ℚ) * 60 ≤ (w : ℚ) / (d2 : ℚ) * 60 := by linarith
  constructor
  · rw [accuracy_def, accuracy_def]
    exact accuracy_antitone hwpm
  · rw [fluency_def, fluency_def]
    exact fluency_antitone hwpm

theorem C9_metrics_antitone_in_speed_witness :
    (calculate_reading_metrics 30 50).2.1 ≤ (calculate_reading_metrics 60 50).2.1 ∧
      (calculate_reading_metrics 30 50).2.2 ≤ (calculate_reading_metrics 60 50).2.2 :=
  C9_metrics_antitone_in_speed 50 60 30 (by norm_num) (by norm_num) (by norm_num)

/-- C3 as stated is false: when the model text parses as a JSON object that
misses required keys, the lesson-plan normalization does not return the
fallback verbatim — it mixes the partially-valid parsed data with empty
defaults.  At raw text decoding to the object with only an `objectives` key,
the generated fields are the parsed objectives together with empty lists and
empty strings, which differs from the fallback fields. -/
theorem C3_lesson_plan_partial_merge_counterexample :
    generate_lesson_plan_result (.ok (some (.obj [("objectives", .arr [.str "X"])]))) =
      .ok ⟨.arr [.str "X"], .arr [], .arr [], .str "", .str ""⟩ ∧
    (⟨.arr [.str "X"], .arr [], .arr [], .str "", .str ""⟩ : LessonFields) ≠
      fallbackLessonFields := by
  constructor
  · rfl
  · simp [fallbackLessonFields]

/-- C3 amended: the fallback is returned verbatim only on JSON decode
failure; whenever the text parses as a JSON object the parsed mapping is used
as-is, with each absent key replaced by its per-key empty default (empty list
for objectives/activities/materials, empty string for
assessment/homework), so partial data and defaults do mix; no exception
reaches the caller on either of these paths. -/
theorem C3_lesson_plan_normalization_amended :
    generate_lesson_plan_result (.ok none) = .ok fallbackLessonFields ∧
    (∀ kvs, ∃ fields,
      generate_lesson_plan_result (.ok (some (.obj kvs))) = .ok fields) ∧
    (∀ kvs,
      generate_lesson_plan_result (.ok (some (.obj kvs))) =
        .ok ⟨dictGet kvs "objectives" (.arr []),
             dictGet kvs "activities" (.arr []),
             dictGet kvs "materials" (.arr []),
             dictGet kvs "assessment" (.str ""),
             dictGet kvs "homework" (.str "")⟩) := by
  exact ⟨rfl, fun kvs => ⟨_, rfl⟩, fun kvs => rfl⟩

/-- C4 as stated is false: when the text decodes to a mapping whose
`variants` value is an empty list, the code's check
(`not worksheet_data or 'variants' not in worksheet_data`) passes, so the
decoded value is kept and the returned worksheet's variants are the empty
list, not the fallback's three variants. -/
theorem C4_worksheet_empty_variants_counterexample :
    responseVariants (generate_enhanced_worksheets
        (.ok (some (.obj [("variants", .arr [])]))) "content" "General" none "id" "ts") =
      some (.arr []) ∧
    JsonV.arr [] ≠ fallbackVariants := by
  constructor
  · rfl
  · simp [fallbackVariants]

lemma any_key_eq_lookup_isSome (kvs : List (String × JsonV)) (k : String) :
    kvs.any (fun kv => kv.1 == k) = (kvs.lookup k).isSome := by
  induction kvs with
  | nil => rfl
  | cons hd tl ih =>
    rcases hd with ⟨a, b⟩
    by_cases h : a = k
    · subst h
      simp [List.lookup]
    · have h1 : (a == k) = false := beq_eq_false_iff_ne.mpr h
      have h2 : (k == a) = false := beq_eq_false_iff_ne.mpr (Ne.symm h)
      simp [List.lookup, h1, h2, ih]

lemma generate_enhanced_worksheets_ok_eq (decoded : Option JsonV)
    (tc s : String) (img : Option String) (uid ts : String) :
    generate_enhanced_worksheets (.ok decoded) tc s img uid ts =
      (match worksheetDataOf decoded tc with
       | .error _ => .ok (create_fallback_worksheet tc)
       | .ok (.obj kvs2) =>
           .ok (.obj [("id", .str uid),
                      ("original_image",
                        match img with | some s2 => .str s2 | none => .null),
                      ("extracted_text", .str tc),
                      ("variants", dictGet kvs2 "variants" (.arr [])),
                      ("subject", .str s),
                      ("topic", dictGet kvs2 "topic" (.str "General")),
                      ("timestamp", .str ts)])
       | .ok _ => .ok (create_fallback_worksheet tc)) := rfl

lemma responseVariants_ok_obj (decoded : Option JsonV) (kvs : List (String × JsonV))
    (tc s : String) (img : Option String) (uid ts : String)
    (h : worksheetDataOf decoded tc = .ok (.obj kvs)) :
    responseVariants (generate_enhanced_worksheets (.ok decoded) tc s img uid ts) =
      some (dictGet kvs "variants" (.arr [])) := by
  rw [generate_enhanced_worksheets_ok_eq, h]
  rfl

lemma responseVariants_fallback (decoded : Option JsonV)
    (tc s : String) (img : Option String) (uid ts : String)
    (h : worksheetDataOf decoded tc = .ok (create_fallback_worksheet tc)) :
    responseVariants (generate_enhanced_worksheets (.ok decoded) tc s img uid ts) =
      some fallbackVariants := by
  rw [generate_enhanced_worksheets_ok_eq, h]
  rfl

lemma responseVariants_err (decoded : Option JsonV)
    (tc s : String) (img : Option String) (uid ts : String)
    (h : worksheetDataOf decoded tc = .error ()) :
    responseVariants (generate_enhanced_worksheets (.ok decoded) tc s img uid ts) =
      some fallbackVariants := by
  rw [generate_enhanced_worksheets_ok_eq, h]
  rfl

/-- C4 amended: the fallback worksheet's variants are substituted whenever
the raw text fails JSON decode, whenever the decoded value is falsy,
whenever it is a mapping without a `variants` key, and whenever the
membership test raises (null, bool, number); but every mapping containing a
`variants` key is kept verbatim — its `variants` value, even the empty list,
is the one returned. -/
theorem C4_worksheet_fallback_amended :
    (∀ tc s img uid ts, responseVariants
        (generate_enhanced_worksheets (.ok none) tc s img uid ts) = some fallbackVariants) ∧
    (∀ v tc s img uid ts, pyTruthy v = false →
      responseVariants (generate_enhanced_worksheets (.ok (some v)) tc s img uid ts) =
        some fallbackVariants) ∧
    (∀ (kvs : List (String × JsonV)) tc s img uid ts, kvs.lookup "variants" = none →
      responseVariants (generate_enhanced_worksheets
          (.ok (some (.obj kvs))) tc s img uid ts) = some fallbackVariants) ∧
    (∀ v tc s img uid ts, pyContains "variants" v = .error () →
      responseVariants (generate_enhanced_worksheets (.ok (some v)) tc s img uid ts) =
        some fallbackVariants) ∧
    (∀ (kvs : List (String × JsonV)) w tc s img uid ts, kvs.lookup "variants" = some w →
      responseVariants (generate_enhanced_worksheets
          (.ok (some (.obj kvs))) tc s img uid ts) = some w) := by
  refine ⟨?_, ?_, ?_, ?_, ?_⟩
  · intro tc s img uid ts
    exact responseVariants_fallback none tc s img uid ts rfl
  · intro v tc s img uid ts h
    refine responseVariants_fallback (some v) tc s img uid ts ?_
    simp [worksheetDataOf, safe_json_parse, h]
  · intro kvs tc s img uid ts h
    rcases kvs with _ | ⟨⟨a, b⟩, tl⟩
    · exact responseVariants_fallback (some (.obj [])) tc s img uid ts rfl
    · have hany : (((a, b) :: tl).any fun kv => kv.1 == "variants") = false := by
        rw [any_key_eq_lookup_isSome, h]
        rfl
      refine responseVariants_fallback (some (.obj ((a, b) :: tl))) tc s img uid ts ?_
      simp [worksheetDataOf, safe_json_parse, pyTruthy, pyContains, hany]
  · intro v tc s img uid ts h
    cases hb : pyTruthy v
    · refine responseVariants_fallback (some v) tc s img uid ts ?_
      simp [worksheetDataOf, safe_json_parse, hb]
    · refine responseVariants_err (some v) tc s img uid ts ?_
      simp [worksheetDataOf, safe_json_parse, hb, h]
  · intro kvs w tc s img uid ts h
    rcases kvs with _ | ⟨⟨a, b⟩, tl⟩
    · simp [List.lookup] at h
    · have hany : (((a, b) :: tl).any fun kv => kv.1 == "variants") = true := by
        rw [any_key_eq_lookup_isSome, h]
        rfl
      have hwd : worksheetDataOf (some (.obj ((a, b) :: tl))) tc =
          .ok (.obj ((a, b) :: tl)) := by
        simp [worksheetDataOf, safe_json_parse, pyTruthy, pyContains, hany]
      rw [responseVariants_ok_obj (some (.obj ((a, b) :: tl))) ((a, b) :: tl)
          tc s img uid ts hwd]
      simp [dictGet, h]

theorem C4_worksheet_fallback_amended_witness :
    responseVariants (generate_enhanced_worksheets
        (.ok (some (.obj [("variants", .arr [])]))) "c" "General" none "id" "ts") =
      some (.arr []) :=
  C4_worksheet_fallback_amended.2.2.2.2 [("variants", .arr [])] (.arr [])
    "c" "General" none "id" "ts" rfl

/-- C5 as stated is false for the worksheet flow: when the upstream
generation call fails, `generate_enhanced_worksheets` does not propagate the
503 service-unavailable condition — its `except Exception` handler absorbs
the failure and returns the fallback worksheet as a successful result. -/
theorem C5_worksheet_absorbs_upstream_failure_counterexample :
    generate_enhanced_worksheets (.error ()) "content" "General" none "id" "ts" =
      .ok (create_fallback_worksheet "content") ∧
    generate_enhanced_worksheets (.error ()) "content" "General" none "id" "ts" ≠
      .error 503 :=
  ⟨rfl, fun h => Except.noConfusion h⟩

/-- C5 amended: `generate_gemini_response` turns any upstream failure into a
uniform 503 service-unavailable signal; the lesson-plan flow re-raises it
unchanged to its caller; the chat flow replaces it with a 500 error (after
having already appended the user message); and the worksheet flow absorbs it,
returning the fallback worksheet as a successful result instead of an
error. -/
theorem C5_upstream_failure_amended :
    generate_gemini_response (α := Option JsonV) (.error ()) = .error 503 ∧
    generate_lesson_plan_result (.error ()) = .error 503 ∧
    (∀ store message language uid1 uid2 ts1 ts2,
      (send_chat_message store message language (.error ()) uid1 uid2 ts1 ts2).2 =
        .error 500) ∧
    (∀ c s img uid ts,
      generate_enhanced_worksheets (.error ()) c s img uid ts =
        .ok (create_fallback_worksheet c)) := by
  exact ⟨rfl, rfl, fun _ _ _ _ _ _ _ => rfl, fun _ _ _ _ _ => rfl⟩

/-- C6: `parse_string_list` splits on newline characters, strips each piece,
and drops pieces that are empty after stripping; the empty string yields the
empty list, the input `"a\n\n b \nc"` yields exactly `["a", "b", "c"]`, and
membership in the result is exactly being the non-empty strip of one of the
newline-separated pieces (the function is total: it never raises and never
substitutes a fallback). -/
theorem C6_parse_string_list_spec :
    parse_string_list [] = [] ∧
    parse_string_list ['a', '\n', '\n', ' ', 'b', ' ', '\n', 'c'] = [['a'], ['b'], ['c']] ∧
    (∀ l t, t ∈ parse_string_list l ↔
      t ≠ [] ∧ ∃ p ∈ splitNewline l, pyStrip p = t) := by
  refine ⟨rfl, by decide, ?_⟩
  intro l t
  simp only [parse_string_list, List.mem_filter, List.mem_map]
  constructor
  · rintro ⟨⟨p, hp, rfl⟩, hne⟩
    exact ⟨by simpa using hne, p, hp, rfl⟩
  · rintro ⟨hne, p, hp, rfl⟩
    exact ⟨⟨p, hp, rfl⟩, by simpa using hne⟩

/-- C8 as stated is false: the fallback worksheet's variants do not all have
exactly one question — the Grade 3 / Easy variant has two questions (the
Grade 4 and Grade 5 variants have one each). -/
theorem C8_fallback_worksheet_counterexample :
    (wsVariants (create_fallback_worksheet "x")).map questionCount ≠ [1, 1, 1] := by
  decide

/-- C8 amended: the fallback worksheet always consists of exactly three fixed
variants — Grade 3 / Easy with two questions, Grade 4 / Medium and Grade 5 /
Hard with one question each — each with placeholder instructions, and every
question is an open-ended `short_answer` question. -/
theorem C8_fallback_worksheet_amended (content : String) :
    (wsVariants (create_fallback_worksheet content)).map variantGrade =
      [some (.str "Grade 3"), some (.str "Grade 4"), some (.str "Grade 5")] ∧
    (wsVariants (create_fallback_worksheet content)).map variantDifficulty =
      [some (.str "Easy"), some (.str "Medium"), some (.str "Hard")] ∧
    (wsVariants (create_fallback_worksheet content)).map variantInstructions =
      [some (.str "Answer the following questions"),
       some (.str "Complete the following exercises"),
       some (.str "Analyze and respond to the following")] ∧
    (wsVariants (create_fallback_worksheet content)).map questionCount = [2, 1, 1] ∧
    (wsVariants (create_fallback_worksheet content)).map
        (fun v => (variantQuestions v).map questionType) =
      [[some (.str "short_answer"), some (.str "short_answer")],
       [some (.str "short_answer")], [some (.str "short_answer")]] :=
  ⟨rfl, rfl, rfl, rfl, rfl⟩

/-- C10: every successful chat send appends exactly two messages to the end
of the history store, in order — first a `user` message whose content is the
request's message, then a `bot` message whose content is the model's reply,
both carrying the request's language — and no existing entry is modified,
removed, or reordered. -/
theorem C10_chat_append_invariant
    (store : List ChatMessage) (message language replyText uid1 uid2 ts1 ts2 : String) :
    (send_chat_message store message language (.ok replyText) uid1 uid2 ts1 ts2).1.length =
        store.length + 2 ∧
    (∀ i : ℕ, i < store.length →
      (send_chat_message store message language (.ok replyText) uid1 uid2 ts1 ts2).1[i]? =
        store[i]?) ∧
    (send_chat_message store message language
        (.ok replyText) uid1 uid2 ts1 ts2).1[store.length]? =
      some { id := uid1, type := "user", content := message,
             language := language, timestamp := ts1 } ∧
    (send_chat_message store message language
        (.ok replyText) uid1 uid2 ts1 ts2).1[store.length + 1]? =
      some { id := uid2, type := "bot", content := replyText,
             language := language, timestamp := ts2 } ∧
    (send_chat_message store message language (.ok replyText) uid1 uid2 ts1 ts2).2 =
      .ok { id := uid2, type := "bot", content := replyText,
            language := language, timestamp := ts2 } := by
  have hres : (send_chat_message store message language (.ok replyText) uid1 uid2 ts1 ts2).1 =
      store ++ [{ id := uid1, type := "user", content := message,
                  language := language, timestamp := ts1 },
                { id := uid2, type := "bot", content := replyText,
                  language := language, timestamp := ts2 }] := by
    simp [send_chat_message, generate_gemini_response]
  refine ⟨?_, ?_, ?_, ?_, rfl⟩
  · rw [hres]; simp
  · intro i hi
    rw [hres, List.getElem?_append_left hi]
  · rw [hres, List.getElem?_append_right (le_refl _)]
    simp
  · rw [hres, List.getElem?_append_right (by omega)]
    simp

theorem C10_chat_append_invariant_witness :
    (send_chat_message
        [{ id := "0", type := "bot", content := "hello",
           language := "en", timestamp := "t0" }]
        "hi" "en" (.ok "reply") "1" "2" "t1" "t2").1[0]? =
      some { id := "0", type := "bot", content := "hello",
             language := "en", timestamp := "t0" } :=
  (C10_chat_append_invariant
      [{ id := "0", type := "bot", content := "hello",
         language := "en", timestamp := "t0" }]
      "hi" "en" "reply" "1" "2" "t1" "t2").2.1 0 (by decide)

end Sahayak
